import Mathlib

/-!
Shallow embedding of `src/app.py` ("Break This Agent Challenge", a Streamlit
page driving two chat agents side by side).

The mutable Streamlit session state is modelled explicitly:

* `st.session_state[f"{agent}_messages"]` and
  `st.session_state[f"{agent}_max_messages"]` become the two fields of
  `Session` (lines 94-98 initialise them to `[]` and `20`).
* One user interaction with an agent's chat pane (lines 127-190) becomes
  `submitTurn`: the limit guard (line 127), the append of the user turn
  (line 154), the construction of the outbound API request (lines 157-161 and
  171-177), the success branch appending the assistant reply (lines 180-182)
  and the failure branch freezing `max_messages` and appending the apology
  (lines 183-190).  The external completion client is a parameter of type
  `Except Unit String`: `Except.ok reply` is a successful stream, and
  `Except.error ()` is any raised exception.
* The clear button (lines 193-196) becomes `clearChat`.
* The challenge-button broadcast machinery (`auto_send_message`,
  `auto_sent_buggy`, `auto_sent_improved`, `showing_auto_message`; lines
  71-88 and 131-144) becomes `broadcast` and `deliverPending` over an
  `AppState` holding both sessions and the flags (a `false` flag models the
  key being absent from `st.session_state`).
* Startup credential loading (lines 36-42, `os.environ["OPENAI_API_KEY"]`
  inside try/except with `st.stop()`) becomes `startApp`: `st.stop()` halts
  the script before the session state at lines 94-98 or the chat interfaces
  at lines 199-200 are ever created.
-/

/-- One chat message, `{"role": ..., "content": ...}` as stored in
`st.session_state[f"{agent}_messages"]`.  Roles are the literal strings the
source uses: `"user"`, `"assistant"`, `"system"`. -/
structure Turn where
  role : String
  content : String
deriving DecidableEq

/-- Line 45 of `src/app.py`. -/
def BUGGY_SYSTEM_PROMPT : String := "You are a resume helper. Help with resumes."

/-- Lines 47-57 of `src/app.py`. -/
def IMPROVED_SYSTEM_PROMPT : String :=
  "You are a helpful and professional Resume Helper AI. Your role is to assist users with resume-related tasks.\n\nIMPORTANT GUIDELINES:\n1. If a user's request is confusing, unclear, or nonsensical, politely acknowledge the confusion and ask for clarification\n2. If a user gives a vague request like \"make it better\", ask them to be more specific about what they want to improve\n3. If a user asks about impossible or unrealistic career goals, be helpful but redirect them to realistic alternatives\n4. If a user sends an empty or very short message, provide helpful examples of what you can assist with\n5. Always maintain a friendly, professional tone even when handling unusual requests\n6. Provide specific examples and actionable advice when possible\n\nRemember: It's better to ask for clarification than to make assumptions about what the user wants."

/-- Line 185 of `src/app.py`: the fixed apology sentinel appended on any
completion failure. -/
def rate_limit_message : String :=
  "Sorry, I can't respond right now. Too many people are using this demo!"

/-- The per-agent state held in `st.session_state`: the message history and
the message cap (lines 94-98). -/
structure Session where
  messages : List Turn
  max_messages : Nat
deriving DecidableEq

/-- Lines 94-98: each agent starts with an empty history and
`max_messages = 20` (10 rounds of conversation). -/
def initSession : Session := { messages := [], max_messages := 20 }

/-- Line 127 as a pure read: `len(st.session_state[messages_key]) >=
st.session_state[max_messages_key]`. -/
def isAtLimit (s : Session) : Bool :=
  decide (s.messages.length ≥ s.max_messages)

/-- The argument list of `client.chat.completions.create` at lines 171-177.
The float temperatures 0.7 and 0.3 are embedded as the exact rationals
7/10 and 3/10. -/
structure ApiRequest where
  model : String
  messages : List Turn
  temperature : ℚ
  max_tokens : Nat
deriving DecidableEq

/-- What one interaction leaves on screen: the limit notice (line 128), a
streamed reply (line 178), or the apology error banner (line 186). -/
inductive Outcome where
  | limitReached
  | delivered (reply : String)
  | failed (sentinel : String)
deriving DecidableEq

/-- One user turn submitted to one agent's chat pane: lines 127-190 of
`src/app.py`.  Returns the new session state, the visible outcome, and the
request sent to the completion client (`none` when the limit guard at line
127 short-circuits and no client call happens).  `completion` stands for the
external client: `Except.ok reply` for a successful call, `Except.error ()`
for any raised exception (the bare `except Exception` at line 183). -/
def submitTurn (agent_type system_prompt : String) (s : Session)
    (prompt : String) (completion : Except Unit String) :
    Session × Outcome × Option ApiRequest :=
  if s.messages.length ≥ s.max_messages then
    (s, Outcome.limitReached, none)
  else
    let afterUser : Session :=
      { s with messages := s.messages ++ [{ role := "user", content := prompt }] }
    let api_messages : List Turn :=
      { role := "system", content := system_prompt } :: afterUser.messages
    let request : ApiRequest :=
      { model := "gpt-3.5-turbo"
        messages := api_messages
        temperature := if agent_type = "buggy" then (7 : ℚ)/10 else (3 : ℚ)/10
        max_tokens := 300 }
    match completion with
    | Except.ok response =>
        ({ afterUser with
            messages := afterUser.messages ++ [{ role := "assistant", content := response }] },
         Outcome.delivered response, some request)
    | Except.error _ =>
        let frozen : Session := { afterUser with max_messages := afterUser.messages.length }
        ({ frozen with
            messages := frozen.messages ++ [{ role := "assistant", content := rate_limit_message }] },
         Outcome.failed rate_limit_message, some request)

/-- The clear button, lines 193-196: history emptied, cap restored to 20. -/
def clearChat (_ : Session) : Session := { messages := [], max_messages := 20 }

/-- One operation a visitor can perform on one agent's pane. -/
inductive Op where
  | submit (prompt : String) (completion : Except Unit String)
  | clearOp

/-- Apply one operation to a session (discarding the visible outcome). -/
def applyOp (agent_type system_prompt : String) (s : Session) : Op → Session
  | Op.submit prompt completion => (submitTurn agent_type system_prompt s prompt completion).1
  | Op.clearOp => clearChat s

/-- Run a sequence of operations from a starting session state. -/
def runOps (agent_type system_prompt : String) (s : Session) (ops : List Op) : Session :=
  ops.foldl (applyOp agent_type system_prompt) s

/-- Line 123: an empty content string renders as the placeholder
`"(empty message)"`; everything else renders verbatim. -/
def displayContent (content : String) : String :=
  if content = "" then "(empty message)" else content

/-- The rendering loop at lines 120-124: every stored message is rendered,
none omitted, with empty content replaced by the placeholder. -/
def renderMessages (msgs : List Turn) : List Turn :=
  msgs.map fun m => { m with content := displayContent m.content }

/-- The whole ambient Streamlit state relevant to the broadcast feature: the
two sessions plus the `auto_send_message`, `auto_sent_buggy`,
`auto_sent_improved` and `showing_auto_message` keys.  A `false` Boolean (or
`none`) models the key being absent from `st.session_state`. -/
structure AppState where
  buggy : Session
  improved : Session
  auto_send_message : Option String
  auto_sent_buggy : Bool
  auto_sent_improved : Bool
  showing_auto_message : Bool
deriving DecidableEq

/-- A challenge-button click, lines 71-80: stores the canned text under
`auto_send_message`. -/
def broadcast (text : String) (st : AppState) : AppState :=
  { st with auto_send_message := some text }

/-- The session the pane for `agent_type` reads (lines 199-200 wire `"buggy"`
to the left column and `"improved"` to the right). -/
def sessionOf (agent_type : String) (st : AppState) : Session :=
  if agent_type = "buggy" then st.buggy else st.improved

/-- Whether `f"auto_sent_{agent_type}"` is present in the session state. -/
def autoSentFlag (agent_type : String) (st : AppState) : Bool :=
  if agent_type = "buggy" then st.auto_sent_buggy else st.auto_sent_improved

/-- Line 135: record that this agent consumed the pending broadcast. -/
def setAutoSent (agent_type : String) (st : AppState) : AppState :=
  if agent_type = "buggy" then { st with auto_sent_buggy := true }
  else { st with auto_sent_improved := true }

/-- Lines 137-144: once both agents carry an `auto_sent_*` flag, delete
`auto_send_message`, `showing_auto_message` and every `auto_sent_*` key. -/
def cleanupIfBothSent (st : AppState) : AppState :=
  if st.auto_sent_buggy && st.auto_sent_improved then
    { st with auto_send_message := none, showing_auto_message := false,
              auto_sent_buggy := false, auto_sent_improved := false }
  else st

/-- The broadcast-delivery part of one rendering pass over one agent's pane,
lines 127-148: nothing is delivered when the agent is at its message limit
(the auto-send check at lines 131-144 sits inside the `else` branch of the
guard at line 127), when no broadcast is pending, or when this agent already
consumed it (then line 148 falls back to the empty chat input, delivering
nothing).  Returns the updated ambient state and the delivered text, if
any. -/
def deliverPending (agent_type : String) (st : AppState) : AppState × Option String :=
  if (sessionOf agent_type st).messages.length ≥ (sessionOf agent_type st).max_messages then
    (st, none)
  else
    match st.auto_send_message with
    | none => (st, none)
    | some msg =>
        if autoSentFlag agent_type st then (st, none)
        else (cleanupIfBothSent (setAutoSent agent_type st), some msg)

/-- Line 41 of `src/app.py`. -/
def api_key_error_message : String :=
  "❌ OpenAI API key not found. Please configure your secrets."

/-- `os.environ` as a finite association list. -/
def lookupEnv (env : List (String × String)) (key : String) : Option String :=
  (env.find? fun p => p.1 == key).map Prod.snd

/-- How far the script of `src/app.py` gets at startup: `halted` when
`st.stop()` at line 42 ends the run (after the error banner at line 41),
`running` once the client exists and both sessions are initialised
(lines 94-98). -/
inductive StartupResult where
  | halted (error_message : String)
  | running (api_key : String) (buggy improved : Session)
deriving DecidableEq

/-- Lines 36-42 followed by lines 94-98: `os.environ["OPENAI_API_KEY"]`
raises `KeyError` when the variable is absent, the `except` arm shows the
error banner and `st.stop()` halts the script, so no session state is ever
created and no chat pane can accept input. -/
def startApp (env : List (String × String)) : StartupResult :=
  match lookupEnv env "OPENAI_API_KEY" with
  | none => StartupResult.halted api_key_error_message
  | some key => StartupResult.running key initSession initSession

/-- The role required at position `i` of a strictly alternating history that
starts with the user. -/
def roleAt (i : Nat) : String := if i % 2 = 0 then "user" else "assistant"

/-- `alternatingFrom i msgs` holds when the turn `j` positions into `msgs`
has role `roleAt (i + j)`. -/
def alternatingFrom : Nat → List Turn → Bool
  | _, [] => true
  | i, t :: ts => decide (t.role = roleAt i) && alternatingFrom (i + 1) ts

/-- Roles strictly alternate starting with `"user"`: even positions are user
turns, odd positions assistant turns. -/
def alternating (msgs : List Turn) : Bool := alternatingFrom 0 msgs

/-- A run of one single submitted turn whose completion call raises: the
state a pane is left in right after the error banner of line 186. -/
def failRun : Session :=
  runOps "buggy" BUGGY_SYSTEM_PROMPT initSession [Op.submit "Make it better" (Except.error ())]

/-- The session left by one completion failure on a fresh improved pane. -/
def failOnce : Session :=
  (submitTurn "improved" IMPROVED_SYSTEM_PROMPT initSession "Make it better" (Except.error ())).1

/-- An ambient state in which the buggy pane has been frozen by a completion
failure (history length 2, cap 1) while the improved pane is fresh, and no
broadcast bookkeeping is pending. -/
def frozenAppState : AppState :=
  { buggy := (submitTurn "buggy" BUGGY_SYSTEM_PROMPT initSession "HELP ME NOW URGENT!!!"
      (Except.error ())).1
    improved := initSession
    auto_send_message := none
    auto_sent_buggy := false
    auto_sent_improved := false
    showing_auto_message := false }

/-- A fresh ambient state: both panes just initialised, nothing pending. -/
def freshAppState : AppState :=
  { buggy := initSession
    improved := initSession
    auto_send_message := none
    auto_sent_buggy := false
    auto_sent_improved := false
    showing_auto_message := false }

/-! Branch characterisations of `submitTurn`. -/

theorem submitTurn_of_ge (a sp : String) (s : Session) (t : String) (c : Except Unit String)
    (h : s.messages.length ≥ s.max_messages) :
    submitTurn a sp s t c = (s, Outcome.limitReached, none) := by
  simp [submitTurn, h]

theorem submitTurn_ok_eq (a sp : String) (s : Session) (t r : String)
    (h : ¬ s.messages.length ≥ s.max_messages) :
    submitTurn a sp s t (Except.ok r) =
      ({ messages := (s.messages ++ [{ role := "user", content := t }]) ++
            [{ role := "assistant", content := r }]
         max_messages := s.max_messages },
       Outcome.delivered r,
       some { model := "gpt-3.5-turbo"
              messages := { role := "system", content := sp } ::
                (s.messages ++ [{ role := "user", content := t }])
              temperature := if a = "buggy" then (7 : ℚ)/10 else (3 : ℚ)/10
              max_tokens := 300 }) := by
  simp [submitTurn, h]

theorem submitTurn_err_eq (a sp : String) (s : Session) (t : String)
    (h : ¬ s.messages.length ≥ s.max_messages) :
    submitTurn a sp s t (Except.error ()) =
      ({ messages := (s.messages ++ [{ role := "user", content := t }]) ++
            [{ role := "assistant", content := rate_limit_message }]
         max_messages := s.messages.length + 1 },
       Outcome.failed rate_limit_message,
       some { model := "gpt-3.5-turbo"
              messages := { role := "system", content := sp } ::
                (s.messages ++ [{ role := "user", content := t }])
              temperature := if a = "buggy" then (7 : ℚ)/10 else (3 : ℚ)/10
              max_tokens := 300 }) := by
  simp [submitTurn, h]

/-! The length bound that actually holds along every run. -/

theorem applyOp_length_le (a sp : String) (s : Session) (op : Op)
    (h : s.messages.length ≤ s.max_messages + 1) :
    (applyOp a sp s op).messages.length ≤ (applyOp a sp s op).max_messages + 1 := by
  cases op with
  | clearOp => simp [applyOp, clearChat]
  | submit t c =>
      rcases Nat.lt_or_ge s.messages.length s.max_messages with hlt | hge
      · have hn : ¬ s.messages.length ≥ s.max_messages := Nat.not_le.mpr hlt
        cases c with
        | ok r =>
            simp only [applyOp]
            rw [submitTurn_ok_eq a sp s t r hn]
            simp only [List.length_append, List.length_cons, List.length_nil]
            omega
        | error e =>
            cases e
            simp only [applyOp]
            rw [submitTurn_err_eq a sp s t hn]
            simp only [List.length_append, List.length_cons, List.length_nil]
            omega
      · simp only [applyOp]
        rw [submitTurn_of_ge a sp s t c hge]
        exact h

theorem runOps_length_le (a sp : String) (ops : List Op) (s : Session)
    (h : s.messages.length ≤ s.max_messages + 1) :
    (runOps a sp s ops).messages.length ≤ (runOps a sp s ops).max_messages + 1 := by
  induction ops generalizing s with
  | nil => exact h
  | cons op ops ih => exact ih (applyOp a sp s op) (applyOp_length_le a sp s op h)

/-! Alternation of roles along every run. -/

theorem alternatingFrom_append (i : Nat) (l m : List Turn) :
    alternatingFrom i (l ++ m) = (alternatingFrom i l && alternatingFrom (i + l.length) m) := by
  induction l generalizing i with
  | nil => simp [alternatingFrom]
  | cons t ts ih =>
      have h : i + 1 + ts.length = i + (ts.length + 1) := by omega
      simp [alternatingFrom, ih, Bool.and_assoc, h]

theorem alternating_append_pair (l : List Turn) (u a : String)
    (h : alternating l = true) (he : l.length % 2 = 0) :
    alternating (l ++ [{ role := "user", content := u }, { role := "assistant", content := a }]) =
      true := by
  have h1 : roleAt l.length = "user" := by simp [roleAt, he]
  have h2 : roleAt (l.length + 1) = "assistant" := by
    have hm : (l.length + 1) % 2 = 1 := by omega
    simp [roleAt, hm]
  unfold alternating at h ⊢
  rw [alternatingFrom_append]
  simp [h, alternatingFrom, h1, h2]

theorem applyOp_alternating (a sp : String) (s : Session) (op : Op)
    (h : alternating s.messages = true ∧ s.messages.length % 2 = 0) :
    alternating (applyOp a sp s op).messages = true ∧
      (applyOp a sp s op).messages.length % 2 = 0 := by
  cases op with
  | clearOp => exact ⟨rfl, rfl⟩
  | submit t c =>
      rcases Nat.lt_or_ge s.messages.length s.max_messages with hlt | hge
      · have hn : ¬ s.messages.length ≥ s.max_messages := Nat.not_le.mpr hlt
        cases c with
        | ok r =>
            simp only [applyOp]
            rw [submitTurn_ok_eq a sp s t r hn]
            refine ⟨?_, ?_⟩
            · rw [List.append_assoc]
              exact alternating_append_pair s.messages t r h.1 h.2
            · simp only [List.length_append, List.length_cons, List.length_nil]
              omega
        | error e =>
            cases e
            simp only [applyOp]
            rw [submitTurn_err_eq a sp s t hn]
            refine ⟨?_, ?_⟩
            · rw [List.append_assoc]
              exact alternating_append_pair s.messages t rate_limit_message h.1 h.2
            · simp only [List.length_append, List.length_cons, List.length_nil]
              omega
      · simp only [applyOp]
        rw [submitTurn_of_ge a sp s t c hge]
        exact h

theorem runOps_alternating (a sp : String) (ops : List Op) (s : Session)
    (h : alternating s.messages = true ∧ s.messages.length % 2 = 0) :
    alternating (runOps a sp s ops).messages = true ∧
      (runOps a sp s ops).messages.length % 2 = 0 := by
  induction ops generalizing s with
  | nil => exact h
  | cons op ops ih => exact ih (applyOp a sp s op) (applyOp_alternating a sp s op h)

/-! Broadcast delivery helpers. -/

theorem deliverPending_no_pending (agent_type : String) (st : AppState)
    (h : st.auto_send_message = none) :
    deliverPending agent_type st = (st, none) := by
  unfold deliverPending
  rw [h]
  split <;> rfl

theorem deliverPending_buggy_first (st : AppState) (text : String)
    (hb : st.buggy.messages.length < st.buggy.max_messages)
    (fb : st.auto_sent_buggy = false)
    (fi : st.auto_sent_improved = false) :
    deliverPending "buggy" (broadcast text st) =
      ({ st with auto_send_message := some text, auto_sent_buggy := true }, some text) := by
  have hnb : ¬ st.buggy.messages.length ≥ st.buggy.max_messages := Nat.not_le.mpr hb
  simp [deliverPending, broadcast, sessionOf, autoSentFlag, setAutoSent, cleanupIfBothSent,
    fb, fi, hnb]

theorem deliverPending_improved_second (st : AppState) (text : String)
    (hi : st.improved.messages.length < st.improved.max_messages)
    (fi : st.auto_sent_improved = false) :
    deliverPending "improved"
        { st with auto_send_message := some text, auto_sent_buggy := true } =
      ({ st with
          auto_send_message := none
          auto_sent_buggy := false
          auto_sent_improved := false
          showing_auto_message := false }, some text) := by
  have hni : ¬ st.improved.messages.length ≥ st.improved.max_messages := Nat.not_le.mpr hi
  simp [deliverPending, sessionOf, autoSentFlag, setAutoSent, cleanupIfBothSent, fi, hni]

/-! The claims. -/

/-- C1 counterexample: one completion failure on a fresh session leaves the
history two turns long (user turn plus apology) while `max_messages` was
frozen at 1, so `history.length ≤ turnLimit` does not survive the failure
branch of `submitTurn`. -/
theorem failure_breaks_length_invariant :
    failRun.messages.length = 2 ∧ failRun.max_messages = 1 ∧
      ¬ failRun.messages.length ≤ failRun.max_messages := by decide

/-- C1 (amended): for every agent and every sequence of submitTurn and clear
operations from a fresh session (completion-failure branches included), once
an operation completes `history.length ≤ turnLimit + 1`; the bound
`turnLimit + 1` is reached exactly by the completion-failure branch, which
freezes `max_messages` at the length including the user turn and then
appends the apology turn. -/
theorem history_le_limit_succ (a sp : String) (ops : List Op) :
    (runOps a sp initSession ops).messages.length ≤
      (runOps a sp initSession ops).max_messages + 1 :=
  runOps_length_le a sp ops initSession (by decide)

/-- C2 counterexample: after a completion failure on a fresh session the
frozen `max_messages` is 1 while the history measured after the apology turn
has length 2, so `turnLimit` does not equal the post-apology history length
as the claim states. -/
theorem turnLimit_ne_post_apology_length :
    failOnce.max_messages = 1 ∧ failOnce.messages.length = 2 ∧
      failOnce.max_messages ≠ failOnce.messages.length := by decide

/-- C2 (amended): for every session below its limit, a completion failure in
`submitTurn` sets `max_messages` to the pre-call history length plus one —
the length measured after the user turn is appended, one less than the
length after the apology sentinel turn — the outcome is the apology
sentinel, the session is at its limit afterwards, and every subsequent
`submitTurn` on it is a no-op blocked by the limit guard. -/
theorem failure_freezes_at_prefailure_succ (a sp : String) (s : Session) (text : String)
    (h : s.messages.length < s.max_messages) :
    (submitTurn a sp s text (Except.error ())).1.max_messages = s.messages.length + 1 ∧
      (submitTurn a sp s text (Except.error ())).1.messages.length = s.messages.length + 2 ∧
      (submitTurn a sp s text (Except.error ())).2.1 = Outcome.failed rate_limit_message ∧
      isAtLimit (submitTurn a sp s text (Except.error ())).1 = true ∧
      ∀ a2 sp2 t2 c2,
        submitTurn a2 sp2 (submitTurn a sp s text (Except.error ())).1 t2 c2 =
          ((submitTurn a sp s text (Except.error ())).1, Outcome.limitReached, none) := by
  have hn : ¬ s.messages.length ≥ s.max_messages := Nat.not_le.mpr h
  rw [submitTurn_err_eq a sp s text hn]
  refine ⟨rfl, ?_, rfl, ?_, ?_⟩
  · simp
  · simp [isAtLimit]
  · intro a2 sp2 t2 c2
    refine submitTurn_of_ge a2 sp2 _ t2 c2 ?_
    simp

/-- C2 witness: the amended failure behaviour at a concrete input. -/
theorem failure_freezes_witness :
    initSession.messages.length < initSession.max_messages ∧
      ((submitTurn "buggy" BUGGY_SYSTEM_PROMPT initSession "Make it better"
          (Except.error ())).1.max_messages = initSession.messages.length + 1 ∧
        (submitTurn "buggy" BUGGY_SYSTEM_PROMPT initSession "Make it better"
          (Except.error ())).1.messages.length = initSession.messages.length + 2 ∧
        (submitTurn "buggy" BUGGY_SYSTEM_PROMPT initSession "Make it better"
          (Except.error ())).2.1 = Outcome.failed rate_limit_message ∧
        isAtLimit (submitTurn "buggy" BUGGY_SYSTEM_PROMPT initSession "Make it better"
          (Except.error ())).1 = true ∧
        ∀ a2 sp2 t2 c2,
          submitTurn a2 sp2 (submitTurn "buggy" BUGGY_SYSTEM_PROMPT initSession "Make it better"
              (Except.error ())).1 t2 c2 =
            ((submitTurn "buggy" BUGGY_SYSTEM_PROMPT initSession "Make it better"
              (Except.error ())).1, Outcome.limitReached, none)) :=
  ⟨by decide,
    failure_freezes_at_prefailure_succ "buggy" BUGGY_SYSTEM_PROMPT initSession "Make it better"
      (by decide)⟩

/-- C4: for every agent and every sequence of submitTurn and clear
operations from a fresh session, whichever branch each call takes, the roles
in the history strictly alternate starting with `"user"`: the turn at every
even index has role `"user"` and the turn at every odd index has role
`"assistant"` (so no two consecutive turns share a role). -/
theorem roles_alternate (a sp : String) (ops : List Op) :
    alternating (runOps a sp initSession ops).messages = true :=
  (runOps_alternating a sp ops initSession ⟨rfl, rfl⟩).1

/-- C5: when a session is at its limit (`isAtLimit` true), `submitTurn`
performs no completion-client call (the request component is `none`), leaves
the session — history and limit — unchanged, and returns the limit-reached
outcome. -/
theorem submitTurn_at_limit_noop (a sp : String) (s : Session) (text : String)
    (c : Except Unit String) (h : isAtLimit s = true) :
    submitTurn a sp s text c = (s, Outcome.limitReached, none) :=
  submitTurn_of_ge a sp s text c (of_decide_eq_true h)

/-- C5 witness: the limit-reached no-op at a concrete frozen session. -/
theorem submitTurn_at_limit_noop_witness :
    isAtLimit failRun = true ∧
      submitTurn "buggy" BUGGY_SYSTEM_PROMPT failRun "HELP ME NOW URGENT!!!" (Except.ok "reply") =
        (failRun, Outcome.limitReached, none) :=
  ⟨by decide,
    submitTurn_at_limit_noop "buggy" BUGGY_SYSTEM_PROMPT failRun "HELP ME NOW URGENT!!!"
      (Except.ok "reply") (by decide)⟩

/-- C7: from any prior session state, frozen or not, the clear button resets
the history to the empty sequence and the limit to the default constant 20;
it is total, with no error condition. -/
theorem clearChat_resets (s : Session) :
    clearChat s = initSession ∧ (clearChat s).messages = [] ∧ (clearChat s).max_messages = 20 :=
  ⟨rfl, rfl, rfl⟩

/-- C10: a single `submitTurn`, whatever branch it takes (limit-reached
no-op, successful reply, or completion failure), never increases
`max_messages`; `clearChat` is the operation that restores it to the
default 20. -/
theorem turnLimit_monotone :
    (∀ a sp s text c, (submitTurn a sp s text c).1.max_messages ≤ s.max_messages) ∧
      ∀ s, (clearChat s).max_messages = 20 := by
  constructor
  · intro a sp s text c
    rcases Nat.lt_or_ge s.messages.length s.max_messages with hlt | hge
    · have hn : ¬ s.messages.length ≥ s.max_messages := Nat.not_le.mpr hlt
      cases c with
      | ok r =>
          rw [submitTurn_ok_eq a sp s text r hn]
      | error e =>
          cases e
          rw [submitTurn_err_eq a sp s text hn]
          exact hlt
    · rw [submitTurn_of_ge a sp s text c hge]
  · intro s
    rfl

theorem getElem?_append_pair (l : List Turn) (u v : Turn) :
    ((l ++ [u]) ++ [v])[l.length]? = some u := by
  rw [List.append_assoc, List.getElem?_append_right (Nat.le_refl _)]
  simp

theorem take_append_pair (l : List Turn) (u v : Turn) :
    ((l ++ [u]) ++ [v]).take (l.length + 1) = l ++ [u] := by
  have h : l.length + 1 = (l ++ [u]).length := by simp
  rw [h, List.take_left]

/-- C6: for every session below its limit, submitting the empty string is
accepted on both completion branches: the appended user turn stores the
empty string itself (not rejected, not converted), and the rendering pass
shows it as the visible placeholder `"(empty message)"` while omitting no
message (rendering preserves the number of turns). -/
theorem empty_prompt_accepted (a sp : String) (s : Session) (c : Except Unit String)
    (h : s.messages.length < s.max_messages) :
    (submitTurn a sp s "" c).1.messages[s.messages.length]? =
        some { role := "user", content := "" } ∧
      (renderMessages (submitTurn a sp s "" c).1.messages)[s.messages.length]? =
        some { role := "user", content := "(empty message)" } ∧
      (renderMessages (submitTurn a sp s "" c).1.messages).length =
        (submitTurn a sp s "" c).1.messages.length := by
  have hn : ¬ s.messages.length ≥ s.max_messages := Nat.not_le.mpr h
  have render : ∀ msgs : List Turn,
      (renderMessages msgs)[s.messages.length]? =
        (msgs[s.messages.length]?).map
          fun m => { m with content := displayContent m.content } := by
    intro msgs
    simp [renderMessages, List.getElem?_map]
  cases c with
  | ok r =>
      rw [submitTurn_ok_eq a sp s "" r hn]
      refine ⟨getElem?_append_pair _ _ _, ?_, by simp [renderMessages]⟩
      rw [render, getElem?_append_pair]
      rfl
  | error e =>
      cases e
      rw [submitTurn_err_eq a sp s "" hn]
      refine ⟨getElem?_append_pair _ _ _, ?_, by simp [renderMessages]⟩
      rw [render, getElem?_append_pair]
      rfl

/-- C6 witness: the empty prompt on a fresh improved session. -/
theorem empty_prompt_accepted_witness :
    initSession.messages.length < initSession.max_messages ∧
      ((submitTurn "improved" IMPROVED_SYSTEM_PROMPT initSession ""
            (Except.ok "Here are some examples")).1.messages[initSession.messages.length]? =
          some { role := "user", content := "" } ∧
        (renderMessages (submitTurn "improved" IMPROVED_SYSTEM_PROMPT initSession ""
            (Except.ok "Here are some examples")).1.messages)[initSession.messages.length]? =
          some { role := "user", content := "(empty message)" } ∧
        (renderMessages (submitTurn "improved" IMPROVED_SYSTEM_PROMPT initSession ""
            (Except.ok "Here are some examples")).1.messages).length =
          (submitTurn "improved" IMPROVED_SYSTEM_PROMPT initSession ""
            (Except.ok "Here are some examples")).1.messages.length) :=
  ⟨by decide,
    empty_prompt_accepted "improved" IMPROVED_SYSTEM_PROMPT initSession
      (Except.ok "Here are some examples") (by decide)⟩

/-- C8: for every session below its limit and every prompt, on either
completion branch `submitTurn` first appends the user turn carrying the
prompt (the history after the call starts with the old history plus that
user turn), and the request handed to the completion client is the single
per-agent system instruction followed by the full updated history, with
model `"gpt-3.5-turbo"`, temperature 0.7 for the buggy (control) agent and
0.3 for the improved (guarded) agent, and 300 max output tokens; the system
instruction is never stored in the history. -/
theorem request_shape (s : Session) (text : String) (c : Except Unit String)
    (h : s.messages.length < s.max_messages)
    (hsys : ∀ t ∈ s.messages, t.role ≠ "system") :
    (submitTurn "buggy" BUGGY_SYSTEM_PROMPT s text c).2.2 =
        some { model := "gpt-3.5-turbo"
               messages := { role := "system", content := BUGGY_SYSTEM_PROMPT } ::
                 (s.messages ++ [{ role := "user", content := text }])
               temperature := (7 : ℚ)/10
               max_tokens := 300 } ∧
      (submitTurn "improved" IMPROVED_SYSTEM_PROMPT s text c).2.2 =
        some { model := "gpt-3.5-turbo"
               messages := { role := "system", content := IMPROVED_SYSTEM_PROMPT } ::
                 (s.messages ++ [{ role := "user", content := text }])
               temperature := (3 : ℚ)/10
               max_tokens := 300 } ∧
      (∀ a sp, (submitTurn a sp s text c).1.messages.take (s.messages.length + 1) =
          s.messages ++ [{ role := "user", content := text }]) ∧
      ∀ a sp t, t ∈ (submitTurn a sp s text c).1.messages → t.role ≠ "system" := by
  have hn : ¬ s.messages.length ≥ s.max_messages := Nat.not_le.mpr h
  cases c with
  | ok r =>
      refine ⟨?_, ?_, ?_, ?_⟩
      · rw [submitTurn_ok_eq "buggy" BUGGY_SYSTEM_PROMPT s text r hn, if_pos rfl]
      · rw [submitTurn_ok_eq "improved" IMPROVED_SYSTEM_PROMPT s text r hn,
          if_neg (by decide : ¬ ("improved" : String) = "buggy")]
      · intro a sp
        rw [submitTurn_ok_eq a sp s text r hn]
        exact take_append_pair _ _ _
      · intro a sp t ht
        rw [submitTurn_ok_eq a sp s text r hn] at ht
        simp only [List.append_assoc, List.mem_append, List.mem_cons,
          List.not_mem_nil, or_false] at ht
        rcases ht with htl | rfl | rfl
        · exact hsys t htl
        · exact (by decide : ("user" : String) ≠ "system")
        · exact (by decide : ("assistant" : String) ≠ "system")
  | error e =>
      cases e
      refine ⟨?_, ?_, ?_, ?_⟩
      · rw [submitTurn_err_eq "buggy" BUGGY_SYSTEM_PROMPT s text hn, if_pos rfl]
      · rw [submitTurn_err_eq "improved" IMPROVED_SYSTEM_PROMPT s text hn,
          if_neg (by decide : ¬ ("improved" : String) = "buggy")]
      · intro a sp
        rw [submitTurn_err_eq a sp s text hn]
        exact take_append_pair _ _ _
      · intro a sp t ht
        rw [submitTurn_err_eq a sp s text hn] at ht
        simp only [List.append_assoc, List.mem_append, List.mem_cons,
          List.not_mem_nil, or_false] at ht
        rcases ht with htl | rfl | rfl
        · exact hsys t htl
        · exact (by decide : ("user" : String) ≠ "system")
        · exact (by decide : ("assistant" : String) ≠ "system")

/-- C8 witness: the request of a successful call on a fresh session. -/
theorem request_shape_witness :
    (initSession.messages.length < initSession.max_messages ∧
        ∀ t ∈ initSession.messages, t.role ≠ "system") ∧
      ((submitTurn "buggy" BUGGY_SYSTEM_PROMPT initSession "Make it better"
            (Except.ok "done")).2.2 =
          some { model := "gpt-3.5-turbo"
                 messages := { role := "system", content := BUGGY_SYSTEM_PROMPT } ::
                   (initSession.messages ++ [{ role := "user", content := "Make it better" }])
                 temperature := (7 : ℚ)/10
                 max_tokens := 300 } ∧
        (submitTurn "improved" IMPROVED_SYSTEM_PROMPT initSession "Make it better"
            (Except.ok "done")).2.2 =
          some { model := "gpt-3.5-turbo"
                 messages := { role := "system", content := IMPROVED_SYSTEM_PROMPT } ::
                   (initSession.messages ++ [{ role := "user", content := "Make it better" }])
                 temperature := (3 : ℚ)/10
                 max_tokens := 300 } ∧
        (∀ a sp, (submitTurn a sp initSession "Make it better"
            (Except.ok "done")).1.messages.take (initSession.messages.length + 1) =
          initSession.messages ++ [{ role := "user", content := "Make it better" }]) ∧
        ∀ a sp t, t ∈ (submitTurn a sp initSession "Make it better"
            (Except.ok "done")).1.messages → t.role ≠ "system") :=
  ⟨⟨by decide, by simp [initSession]⟩,
    request_shape initSession "Make it better" (Except.ok "done") (by decide)
      (by simp [initSession])⟩

/-- C9: when the environment has no `OPENAI_API_KEY` entry, the script halts
at startup with the configuration error banner, and in particular never
reaches the running state in which the two sessions exist and could accept
input — the failure is not deferred to the first completion call. -/
theorem missing_key_halts_startup (env : List (String × String))
    (h : lookupEnv env "OPENAI_API_KEY" = none) :
    startApp env = StartupResult.halted api_key_error_message ∧
      ∀ key b i, startApp env ≠ StartupResult.running key b i := by
  refine ⟨?_, ?_⟩
  · simp [startApp, h]
  · intro key b i hc
    simp [startApp, h] at hc

/-- C9 witness: an environment carrying an unrelated variable only. -/
theorem missing_key_halts_startup_witness :
    lookupEnv [("HOME", "/root")] "OPENAI_API_KEY" = none ∧
      (startApp [("HOME", "/root")] = StartupResult.halted api_key_error_message ∧
        ∀ key b i, startApp [("HOME", "/root")] ≠ StartupResult.running key b i) :=
  ⟨rfl, missing_key_halts_startup [("HOME", "/root")] rfl⟩

/-- C3 counterexample: with the buggy session frozen at its limit by an
earlier completion failure, a broadcast followed by one deliverPending pass
per session does not deliver the text to the buggy session at all — the
delivery for it returns none because the auto-send check sits inside the
below-limit branch — refuting delivery "exactly once per session regardless
of the sessions' prior state". -/
theorem broadcast_skips_session_at_limit :
    isAtLimit frozenAppState.buggy = true ∧
      (deliverPending "buggy" (broadcast "Make it better" frozenAppState)).2 = none ∧
      (deliverPending "buggy" (broadcast "Make it better" frozenAppState)).2 ≠
        some "Make it better" := by decide

/-- C3 (amended): when both sessions are below their limits and no delivery
flag is left over, a broadcast followed by one deliverPending pass for the
buggy session and then one for the improved session delivers the literal
text to each exactly once, the request is then discarded (`auto_send_message`
cleared, both flags reset, sessions untouched), and a further deliverPending
pass for either session returns none and changes nothing, so the broadcast
never replays. -/
theorem broadcast_delivers_once_when_active (st : AppState) (text : String)
    (hb : st.buggy.messages.length < st.buggy.max_messages)
    (hi : st.improved.messages.length < st.improved.max_messages)
    (fb : st.auto_sent_buggy = false)
    (fi : st.auto_sent_improved = false) :
    (deliverPending "buggy" (broadcast text st)).2 = some text ∧
      (deliverPending "improved" (deliverPending "buggy" (broadcast text st)).1).2 =
        some text ∧
      (deliverPending "improved"
          (deliverPending "buggy" (broadcast text st)).1).1.auto_send_message = none ∧
      (deliverPending "improved"
          (deliverPending "buggy" (broadcast text st)).1).1.buggy = st.buggy ∧
      (deliverPending "improved"
          (deliverPending "buggy" (broadcast text st)).1).1.improved = st.improved ∧
      deliverPending "buggy"
          (deliverPending "improved" (deliverPending "buggy" (broadcast text st)).1).1 =
        ((deliverPending "improved" (deliverPending "buggy" (broadcast text st)).1).1, none) ∧
      deliverPending "improved"
          (deliverPending "improved" (deliverPending "buggy" (broadcast text st)).1).1 =
        ((deliverPending "improved" (deliverPending "buggy" (broadcast text st)).1).1, none) := by
  have e1 : deliverPending "buggy" (broadcast text st) =
      ({ st with auto_send_message := some text, auto_sent_buggy := true }, some text) :=
    deliverPending_buggy_first st text hb fb fi
  have e2 : deliverPending "improved" (deliverPending "buggy" (broadcast text st)).1 =
      ({ st with
          auto_send_message := none
          auto_sent_buggy := false
          auto_sent_improved := false
          showing_auto_message := false }, some text) := by
    rw [e1]
    exact deliverPending_improved_second st text hi fi
  refine ⟨by rw [e1], by rw [e2], by rw [e2], by rw [e2], by rw [e2], ?_, ?_⟩
  · rw [e2]
    exact deliverPending_no_pending "buggy" _ rfl
  · rw [e2]
    exact deliverPending_no_pending "improved" _ rfl

/-- C3 witness: the amended broadcast behaviour on a fresh ambient state. -/
theorem broadcast_delivers_once_witness :
    (freshAppState.buggy.messages.length < freshAppState.buggy.max_messages ∧
        freshAppState.improved.messages.length < freshAppState.improved.max_messages ∧
        freshAppState.auto_sent_buggy = false ∧
        freshAppState.auto_sent_improved = false) ∧
      ((deliverPending "buggy" (broadcast "Make it better" freshAppState)).2 =
          some "Make it better" ∧
        (deliverPending "improved"
            (deliverPending "buggy" (broadcast "Make it better" freshAppState)).1).2 =
          some "Make it better" ∧
        (deliverPending "improved"
            (deliverPending "buggy"
              (broadcast "Make it better" freshAppState)).1).1.auto_send_message = none ∧
        (deliverPending "improved"
            (deliverPending "buggy"
              (broadcast "Make it better" freshAppState)).1).1.buggy = freshAppState.buggy ∧
        (deliverPending "improved"
            (deliverPending "buggy"
              (broadcast "Make it better" freshAppState)).1).1.improved =
          freshAppState.improved ∧
        deliverPending "buggy"
            (deliverPending "improved"
              (deliverPending "buggy" (broadcast "Make it better" freshAppState)).1).1 =
          ((deliverPending "improved"
              (deliverPending "buggy" (broadcast "Make it better" freshAppState)).1).1,
            none) ∧
        deliverPending "improved"
            (deliverPending "improved"
              (deliverPending "buggy" (broadcast "Make it better" freshAppState)).1).1 =
          ((deliverPending "improved"
              (deliverPending "buggy" (broadcast "Make it better" freshAppState)).1).1,
            none)) :=
  ⟨⟨by decide, by decide, rfl, rfl⟩,
    broadcast_delivers_once_when_active freshAppState "Make it better"
      (by decide) (by decide) rfl rfl⟩
